import Mathlib

/-!
# Verification of the glutin headless window host
  (`src/ports/glutin/headless_window.rs`)

Shallow embedding of the headless `Window` and its operations.

Modelling conventions:
* `i32` sizes are embedded as `Int` (no arithmetic in the source can
  overflow: the only operations are comparison with 0 and replacement by 1).
* The `f32` scale factor `device_pixels_per_px` and all derived `f32`
  values are embedded as `Rat`.  Every operation the source performs on
  them (defaulting to `1.0`, one multiplication by an integer-valued
  height of magnitude at most 2^31) is exact in `f32` range for the
  values the claims mention, and the structure of the computation is
  preserved exactly.
* Interior mutability (`Cell`) becomes explicit state passing: each
  `&self` method that only reads cells is a pure function of the state;
  `get_events` (which calls `Cell::take`) and the setters return an
  updated state.
* The external surface provider `WebrenderSurfman` (not part of this
  source file) is modelled abstractly: a field holding the result its
  live-info query `context_surface_info()` would return
  (`Result<Option<SurfaceInfo>>` becomes `Option (Option SurfaceInfo)`,
  with the outer `none` standing for `Err`), and a log of the sizes
  passed to its `resize` operation, so that theorems can speak about
  whether and with what argument `resize` was invoked.
-/

namespace HeadlessWindow

/-- Model of `euclid::Size2D<i32, _>`: a pair of integer dimensions (units erased). -/
structure Size2D where
  width : Int
  height : Int
deriving DecidableEq, Repr

/-- Model of `euclid::Point2D<i32, _>`. -/
structure Point2D where
  x : Int
  y : Int
deriving DecidableEq, Repr

/-- Model of `Point2D::zero()`. -/
def Point2D.zero : Point2D := ⟨0, 0⟩

/-- Model of `webrender_api::units::DeviceIntRect`: origin and size. -/
structure DeviceIntRect where
  origin : Point2D
  size : Size2D
deriving DecidableEq, Repr

/-- Model of `servo::compositing::windowing::AnimationState` (external enum used by
the source; it has exactly these two variants). -/
inductive AnimationState where
  | Idle
  | Animating
deriving DecidableEq, Repr

/-- Model of `servo::compositing::windowing::WindowEvent` (external enum; the source
only ever constructs the `Resize` variant, but the enum has others — we
keep a second variant so that "only resize events are produced" is a real
statement). -/
inductive WindowEvent where
  | Resize
  | Idle
deriving DecidableEq, Repr

/-- Model of `servo_media::player::context::GlContext`: the source returns the
`Unknown` variant; other variants carry platform handles. -/
inductive GlContext where
  | Egl (handle : Nat)
  | Glx (handle : Nat)
  | Unknown
deriving DecidableEq, Repr

/-- Model of `servo_media::player::context::NativeDisplay`. -/
inductive NativeDisplay where
  | Egl (handle : Nat)
  | X11 (handle : Nat)
  | Unknown
deriving DecidableEq, Repr

/-- Model of `servo_media::player::context::GlApi`. -/
inductive GlApi where
  | OpenGL
  | OpenGL3
  | Gles1
  | Gles2
  | None
deriving DecidableEq, Repr

/-- Model of `winit::WindowEvent`: an external platform-event enum whose structure
is irrelevant to this file (the source never inspects it); modelled as an
abstract inhabited type with infinitely many values. -/
structure WinitWindowEvent where
  tag : Nat
deriving DecidableEq, Repr

/-- Model of `surfman` surface info as far as the source uses it: only `info.size`
is ever read. -/
structure SurfaceInfo where
  size : Size2D
deriving DecidableEq, Repr

/-- Abstract model of the external `WebrenderSurfman` provider.
`surfaceInfo` is the value its `context_surface_info()` query returns
(`none` = the `Result` is an `Err`; `some none` = `Ok(None)`);
`resizeLog` records each size passed to `resize` (the source calls
`.expect(..)` on the result, i.e. aborts rather than continues on
provider failure, so a normally-returning `resize` is total here). -/
structure WebrenderSurfman where
  surfaceInfo : Option (Option SurfaceInfo)
  resizeLog : List Size2D
deriving DecidableEq, Repr

/-- Embedding of `WebrenderSurfman::resize`: invoke the provider resize with the given
size (recorded in the log). -/
def WebrenderSurfman.resize (s : WebrenderSurfman) (size : Size2D) : WebrenderSurfman :=
  { s with resizeLog := s.resizeLog ++ [size] }

/-- The headless `Window` struct: all `Cell` fields made plain fields. -/
structure Window where
  webrender_surfman : WebrenderSurfman
  animation_state : AnimationState
  fullscreen : Bool
  device_pixels_per_px : Option Rat
  inner_size : Size2D
  size_changed : Bool
deriving DecidableEq, Repr

/-- Embedding of `Window::new`: the requested size (a `u32` pair, hence the `Nat`
arguments; `to_i32` is the identity for the in-range values considered
here) is stored in `inner_size` UNCLAMPED, and a generic surface of that
raw size is created, so the provider's live info initially reports it. -/
def Window.new (width height : Nat) (device_pixels_per_px : Option Rat) : Window :=
  { webrender_surfman :=
      { surfaceInfo := some (some ⟨⟨(width : Int), (height : Int)⟩⟩), resizeLog := [] }
    animation_state := AnimationState.Idle
    fullscreen := false
    device_pixels_per_px := device_pixels_per_px
    inner_size := ⟨(width : Int), (height : Int)⟩
    size_changed := false }

/-- Embedding of `Window::servo_hidpi_factor`: the configured scale, defaulting to 1.0. -/
def Window.servo_hidpi_factor (w : Window) : Rat :=
  match w.device_pixels_per_px with
  | some device_pixels_per_px => device_pixels_per_px
  | _ => 1

/-- Embedding of `get_events`: starts from an empty vector; `size_changed.take()` reads
and clears the flag, and a `Resize` event is pushed when it was set.
Returns the vector together with the updated state. -/
def Window.get_events (w : Window) : List WindowEvent × Window :=
  (if w.size_changed then [WindowEvent.Resize] else [],
   { w with size_changed := false })

/-- Embedding of `set_inner_size`: clamp each dimension to 1 (the provider rejects
0-dimension windows), invoke the provider resize and store the new size
only when it differs from the stored size, and set `size_changed`
unconditionally. -/
def Window.set_inner_size (w : Window) (size : Size2D) : Window :=
  let width := if size.width > 0 then size.width else 1
  let height := if size.height > 0 then size.height else 1
  let new_size : Size2D := ⟨width, height⟩
  let w :=
    if w.inner_size ≠ new_size then
      { w with
        webrender_surfman := w.webrender_surfman.resize new_size
        inner_size := new_size }
    else w
  { w with size_changed := true }

/-- Embedding of `has_events`: a pure read of the `size_changed` cell. -/
def Window.has_events (w : Window) : Bool :=
  w.size_changed

/-- Embedding of `page_height`: `context_surface_info().unwrap_or(None)
.map(|info| info.size.height).unwrap_or(0)` times the hidpi factor. -/
def Window.page_height (w : Window) : Rat :=
  let height := ((w.webrender_surfman.surfaceInfo.getD none).map
    (fun info => info.size.height)).getD 0
  let dpr := w.servo_hidpi_factor
  (height : Rat) * dpr

/-- Embedding of `set_fullscreen`. -/
def Window.set_fullscreen (w : Window) (state : Bool) : Window :=
  { w with fullscreen := state }

/-- Embedding of `get_fullscreen`. -/
def Window.get_fullscreen (w : Window) : Bool :=
  w.fullscreen

/-- Embedding of `is_animating`: equality test of the stored state with `Animating`. -/
def Window.is_animating (w : Window) : Bool :=
  w.animation_state == AnimationState.Animating

/-- Embedding of `winit_event_to_servo_event`: the body is
`unreachable!("Did not expect a WindowEvent for a headless session")` —
a fatal assertion; modelled as `Option Unit` where `none` stands for the
panic, so a normal return would be `some ()`. -/
def Window.winit_event_to_servo_event (_w : Window) (_event : WinitWindowEvent) :
    Option Unit :=
  none

/-- Model of `EmbedderCoordinates` as the source populates it. -/
structure EmbedderCoordinates where
  viewport : DeviceIntRect
  framebuffer : Size2D
  window : Size2D × Point2D
  screen : Size2D
  screen_avail : Size2D
  hidpi_factor : Rat
deriving DecidableEq, Repr

/-- Embedding of `get_coordinates`: query the provider's live surface info, defaulting
to a zero size on failure or absence, and populate every rectangle from
that single size with zero origins. Total: never an error result. -/
def Window.get_coordinates (w : Window) : EmbedderCoordinates :=
  let dpr := w.servo_hidpi_factor
  let size := ((w.webrender_surfman.surfaceInfo.getD none).map
    (fun info => info.size)).getD ⟨0, 0⟩
  let viewport : DeviceIntRect := ⟨Point2D.zero, size⟩
  { viewport := viewport
    framebuffer := size
    window := (size, Point2D.zero)
    screen := size
    screen_avail := size
    hidpi_factor := dpr }

/-- Embedding of `set_animation_state`. -/
def Window.set_animation_state (w : Window) (state : AnimationState) : Window :=
  { w with animation_state := state }

/-- Embedding of `get_gl_context`: fixed `Unknown`. -/
def Window.get_gl_context (_w : Window) : GlContext :=
  GlContext.Unknown

/-- Embedding of `get_native_display`: fixed `Unknown`. -/
def Window.get_native_display (_w : Window) : NativeDisplay :=
  NativeDisplay.Unknown

/-- Embedding of `get_gl_api`: fixed `None`. -/
def Window.get_gl_api (_w : Window) : GlApi :=
  GlApi.None

/-- The host operations a caller can perform on a constructed window.
Used to state reachability and frame conditions. -/
inductive HostOp where
  | setInnerSize (size : Size2D)
  | getEvents
  | hasEvents
  | pageHeight
  | setFullscreen (b : Bool)
  | getFullscreen
  | isAnimating
  | setAnimationState (s : AnimationState)
  | getCoordinates
  | getGlContext
  | getNativeDisplay
  | getGlApi
deriving DecidableEq, Repr

/-- Is this operation a resize? -/
def HostOp.isSetInnerSize : HostOp → Bool
  | .setInnerSize _ => true
  | _ => false

/-- Is this operation a fullscreen setter? -/
def HostOp.isSetFullscreen : HostOp → Bool
  | .setFullscreen _ => true
  | _ => false

/-- Is this operation an animation-state setter? -/
def HostOp.isSetAnimationState : HostOp → Bool
  | .setAnimationState _ => true
  | _ => false

/-- State transition of one host operation.  Query operations take
`&self` and only read `Cell`s in the source, so they leave the state
unchanged; `get_events` keeps the state component of its result. -/
def applyOp (op : HostOp) (w : Window) : Window :=
  match op with
  | .setInnerSize size => w.set_inner_size size
  | .getEvents => (w.get_events).2
  | .hasEvents => w
  | .pageHeight => w
  | .setFullscreen b => w.set_fullscreen b
  | .getFullscreen => w
  | .isAnimating => w
  | .setAnimationState s => w.set_animation_state s
  | .getCoordinates => w
  | .getGlContext => w
  | .getNativeDisplay => w
  | .getGlApi => w

/-- Run a sequence of host operations from a state. -/
def applyOps (ops : List HostOp) (w : Window) : Window :=
  ops.foldl (fun w op => applyOp op w) w

end HeadlessWindow

/-! ## Basic lemmas about the operations -/

namespace HeadlessWindow

/-- Unfolding of `applyOps` on a cons cell. -/
theorem applyOps_cons (op : HostOp) (ops : List HostOp) (w : Window) :
    applyOps (op :: ops) w = applyOps ops (applyOp op w) :=
  rfl

/-- Unfolding of `applyOps` on the empty list. -/
theorem applyOps_nil (w : Window) : applyOps [] w = w :=
  rfl

/-- The `size_changed` flag is true right after any resize. -/
theorem set_inner_size_size_changed (w : Window) (size : Size2D) :
    (w.set_inner_size size).size_changed = true := by
  unfold Window.set_inner_size
  by_cases h : w.inner_size =
      (⟨if size.width > 0 then size.width else 1,
        if size.height > 0 then size.height else 1⟩ : Size2D) <;>
    simp [h]

/-- A resize leaves the fields other than the surfman, the stored size and
the flag untouched. -/
theorem set_inner_size_other_fields (w : Window) (size : Size2D) :
    (w.set_inner_size size).animation_state = w.animation_state ∧
    (w.set_inner_size size).fullscreen = w.fullscreen ∧
    (w.set_inner_size size).device_pixels_per_px = w.device_pixels_per_px ∧
    (w.set_inner_size size).webrender_surfman.surfaceInfo =
      w.webrender_surfman.surfaceInfo := by
  unfold Window.set_inner_size
  by_cases h : w.inner_size =
      (⟨if size.width > 0 then size.width else 1,
        if size.height > 0 then size.height else 1⟩ : Size2D) <;>
    simp [h, WebrenderSurfman.resize]

/-- The clamping expression of the source equals `max · 1`. -/
theorem clamp_eq_max (x : Int) : (if x > 0 then x else 1) = max x 1 := by
  split <;> omega

/-- The stored size after a resize is the componentwise max of the request
with 1. -/
theorem set_inner_size_inner_size (w : Window) (size : Size2D) :
    (w.set_inner_size size).inner_size =
      ⟨max size.width 1, max size.height 1⟩ := by
  unfold Window.set_inner_size
  by_cases h : w.inner_size =
      (⟨if size.width > 0 then size.width else 1,
        if size.height > 0 then size.height else 1⟩ : Size2D)
  · simp [h, clamp_eq_max]
  · simp only [clamp_eq_max] at h
    simp [h, clamp_eq_max]

end HeadlessWindow

namespace HeadlessWindow

/-- Any operation other than a fullscreen setter leaves `fullscreen`
unchanged. -/
theorem applyOp_fullscreen (op : HostOp) (w : Window)
    (h : op.isSetFullscreen = false) :
    (applyOp op w).fullscreen = w.fullscreen := by
  cases op <;>
    simp_all [applyOp, HostOp.isSetFullscreen, Window.get_events,
      Window.set_animation_state, set_inner_size_other_fields w]

/-- Any sequence of operations without a fullscreen setter leaves
`fullscreen` unchanged. -/
theorem applyOps_fullscreen (ops : List HostOp) (w : Window)
    (h : ops.all (fun op => !op.isSetFullscreen) = true) :
    (applyOps ops w).fullscreen = w.fullscreen := by
  induction ops generalizing w with
  | nil => rfl
  | cons op ops ih =>
    simp only [List.all_cons, Bool.and_eq_true, Bool.not_eq_true'] at h
    rw [applyOps_cons, ih _ (by simpa using h.2), applyOp_fullscreen op w h.1]

/-- Any operation other than an animation-state setter leaves
`animation_state` unchanged. -/
theorem applyOp_animation_state (op : HostOp) (w : Window)
    (h : op.isSetAnimationState = false) :
    (applyOp op w).animation_state = w.animation_state := by
  cases op <;>
    simp_all [applyOp, HostOp.isSetAnimationState, Window.get_events,
      Window.set_fullscreen]
  exact (set_inner_size_other_fields w _).1

/-- Any sequence of operations without an animation-state setter leaves
`animation_state` unchanged. -/
theorem applyOps_animation_state (ops : List HostOp) (w : Window)
    (h : ops.all (fun op => !op.isSetAnimationState) = true) :
    (applyOps ops w).animation_state = w.animation_state := by
  induction ops generalizing w with
  | nil => rfl
  | cons op ops ih =>
    simp only [List.all_cons, Bool.and_eq_true, Bool.not_eq_true'] at h
    rw [applyOps_cons, ih _ (by simpa using h.2), applyOp_animation_state op w h.1]

/-- Any operation other than a resize leaves `inner_size` unchanged. -/
theorem applyOp_inner_size (op : HostOp) (w : Window)
    (h : op.isSetInnerSize = false) :
    (applyOp op w).inner_size = w.inner_size := by
  cases op <;>
    simp_all [applyOp, HostOp.isSetInnerSize, Window.get_events,
      Window.set_fullscreen, Window.set_animation_state]

/-- Any sequence of operations without a resize leaves `inner_size`
unchanged. -/
theorem applyOps_inner_size (ops : List HostOp) (w : Window)
    (h : ops.all (fun op => !op.isSetInnerSize) = true) :
    (applyOps ops w).inner_size = w.inner_size := by
  induction ops generalizing w with
  | nil => rfl
  | cons op ops ih =>
    simp only [List.all_cons, Bool.and_eq_true, Bool.not_eq_true'] at h
    rw [applyOps_cons, ih _ (by simpa using h.2), applyOp_inner_size op w h.1]

/-- The stored-size positivity invariant. -/
def sizeInv (w : Window) : Prop :=
  1 ≤ w.inner_size.width ∧ 1 ≤ w.inner_size.height

/-- A resize always establishes the positivity invariant. -/
theorem set_inner_size_establishes_inv (w : Window) (size : Size2D) :
    sizeInv (w.set_inner_size size) := by
  unfold sizeInv
  rw [set_inner_size_inner_size]
  constructor <;> simp [le_max_iff]

/-- Every operation preserves the positivity invariant. -/
theorem applyOp_preserves_inv (op : HostOp) (w : Window)
    (h : sizeInv w) : sizeInv (applyOp op w) := by
  cases op with
  | setInnerSize size => exact set_inner_size_establishes_inv w size
  | getEvents => exact h
  | _ => exact h

/-- Every operation sequence preserves the positivity invariant. -/
theorem applyOps_preserves_inv (ops : List HostOp) (w : Window)
    (h : sizeInv w) : sizeInv (applyOps ops w) := by
  induction ops generalizing w with
  | nil => exact h
  | cons op ops ih => exact ih _ (applyOp_preserves_inv op w h)

/-- After a nonempty run of resizes, the `size_changed` flag is set. -/
theorem size_changed_after_resizes (w : Window) (s : Size2D)
    (rest : List Size2D) :
    (applyOps (((s :: rest).map HostOp.setInnerSize)) w).size_changed = true := by
  induction rest generalizing w s with
  | nil =>
    rw [List.map_cons, List.map_nil, applyOps_cons, applyOps_nil]
    exact set_inner_size_size_changed w s
  | cons s2 rest ih =>
    rw [List.map_cons, applyOps_cons]
    exact ih _ s2

end HeadlessWindow

/-! ## The claims -/

namespace HeadlessWindow

/-- Claim C1: every resize request sets the pending-event flag to true
unconditionally (even when the clamped requested size equals the stored
logical size), while the provider's resize operation is invoked — with the
clamped size — if and only if the clamped size differs from the stored
logical size. -/
theorem resize_sets_flag_and_invokes_provider_iff_changed
    (w : Window) (size : Size2D) :
    (w.set_inner_size size).size_changed = true ∧
    (w.set_inner_size size).webrender_surfman.resizeLog =
      (if w.inner_size ≠ (⟨max size.width 1, max size.height 1⟩ : Size2D)
       then w.webrender_surfman.resizeLog ++
         [(⟨max size.width 1, max size.height 1⟩ : Size2D)]
       else w.webrender_surfman.resizeLog) := by
  refine ⟨set_inner_size_size_changed w size, ?_⟩
  unfold Window.set_inner_size
  by_cases h : w.inner_size =
      (⟨if size.width > 0 then size.width else 1,
        if size.height > 0 then size.height else 1⟩ : Size2D)
  · simp only [clamp_eq_max] at h
    simp [h, clamp_eq_max]
  · simp only [clamp_eq_max] at h
    simp [h, clamp_eq_max, WebrenderSurfman.resize]

/-- Claim C2: the realized stored size after a resize equals the
componentwise maximum of the request with (1, 1): each non-positive
dimension is clamped independently to exactly 1, each positive dimension
is applied unchanged. -/
theorem resize_realized_size_is_max_with_one (w : Window) (size : Size2D) :
    (w.set_inner_size size).inner_size =
      ⟨max size.width 1, max size.height 1⟩ :=
  set_inner_size_inner_size w size

/-- Claim C3: after one or more resizes with no intervening poll, the next
poll yields exactly one `Resize` event, and the poll right after yields
none; with no pending resize a poll yields nothing; and a poll never
yields any event kind other than `Resize`. -/
theorem poll_coalesces_resizes (w : Window) (s : Size2D)
    (rest : List Size2D) :
    ((applyOps ((s :: rest).map HostOp.setInnerSize) w).get_events).1 =
      [WindowEvent.Resize] ∧
    ((((applyOps ((s :: rest).map HostOp.setInnerSize) w).get_events).2).get_events).1 =
      [] ∧
    (({ w with size_changed := false } : Window).get_events).1 = [] ∧
    ((w.get_events).1 = [] ∨ (w.get_events).1 = [WindowEvent.Resize]) := by
  have hflag := size_changed_after_resizes w s rest
  simp only [List.map_cons] at hflag
  refine ⟨?_, ?_, ?_, ?_⟩
  · simp [Window.get_events, hflag]
  · simp [Window.get_events]
  · simp [Window.get_events]
  · cases hw : w.size_changed <;> simp [Window.get_events, hw]

/-- Claim C4 counterexample: the claimed invariant "both dimensions ≥ 1 at
all times, including immediately after construction" fails at construction
with requested size (0, 0): `Window::new` stores the raw requested size
unclamped. -/
theorem construction_with_zero_size_violates_invariant :
    ¬ (1 ≤ (Window.new 0 0 none).inner_size.width ∧
       1 ≤ (Window.new 0 0 none).inner_size.height) := by
  decide

/-- Claim C4 (amended): immediately after construction the stored logical
size is the raw requested size, which may have 0 components; in every
state reached by an operation sequence containing at least one resize,
both dimensions of the stored logical size are ≥ 1. -/
theorem size_invariant_after_any_resize (w : Window)
    (pre post : List HostOp) (size : Size2D) (nw nh : Nat) (d : Option Rat) :
    (Window.new nw nh d).inner_size = ⟨(nw : Int), (nh : Int)⟩ ∧
    1 ≤ (applyOps post
          (applyOp (HostOp.setInnerSize size) (applyOps pre w))).inner_size.width ∧
    1 ≤ (applyOps post
          (applyOp (HostOp.setInnerSize size) (applyOps pre w))).inner_size.height := by
  refine ⟨rfl, ?_⟩
  exact applyOps_preserves_inv post _
    (set_inner_size_establishes_inv (applyOps pre w) size)

/-- Claim C5: `has_events` returns true exactly when the next poll would be
non-empty, and performing the pending-events query leaves the host state
unchanged. -/
theorem has_events_agrees_with_poll_and_is_pure (w : Window) :
    (w.has_events = true ↔ (w.get_events).1 ≠ []) ∧
    applyOp HostOp.hasEvents w = w := by
  constructor
  · cases hw : w.size_changed <;>
      simp [Window.has_events, Window.get_events, hw]
  · rfl

end HeadlessWindow

namespace HeadlessWindow

/-- Claim C6: `page_height` returns the height reported by the provider's
live surface info multiplied by the pixel-density factor; the factor is
the configured `device_pixels_per_px` when present and 1 when unset; with
density 2 and surface height 300 the result is 600; when the provider's
info is unavailable (query error or absent surface) the raw height
defaults to 0, so the result is 0. -/
theorem page_height_scales_surface_height (w : Window) (d : Rat)
    (info : SurfaceInfo) :
    ({ w with device_pixels_per_px := none } : Window).servo_hidpi_factor = 1 ∧
    ({ w with device_pixels_per_px := some d } : Window).servo_hidpi_factor = d ∧
    ({ w with webrender_surfman :=
        { w.webrender_surfman with
          surfaceInfo := some (some info) } } : Window).page_height =
      (info.size.height : Rat) * w.servo_hidpi_factor ∧
    ({ w with webrender_surfman :=
        { w.webrender_surfman with
          surfaceInfo := none } } : Window).page_height = 0 ∧
    ({ w with webrender_surfman :=
        { w.webrender_surfman with
          surfaceInfo := some none } } : Window).page_height = 0 ∧
    ({ w with device_pixels_per_px := some 2,
              webrender_surfman :=
                { w.webrender_surfman with
                  surfaceInfo :=
                    some (some ⟨⟨info.size.width, 300⟩⟩) } } : Window).page_height =
      600 := by
  refine ⟨rfl, rfl, ?_, ?_, ?_, ?_⟩
  · simp [Window.page_height, Window.servo_hidpi_factor]
  · simp [Window.page_height]
  · simp [Window.page_height]
  · norm_num [Window.page_height, Window.servo_hidpi_factor]

/-- Claim C7: `get_coordinates` is a total function (never an error
result): the viewport, window, screen and screen-available rectangles all
equal the framebuffer size obtained from the provider, with zero origins,
together with the hidpi factor; that size is the provider's live surface
size when available and (0, 0) when the query fails or reports no
surface. -/
theorem get_coordinates_defaults_and_uniform (w : Window)
    (info : SurfaceInfo) :
    (w.get_coordinates.viewport =
        ⟨Point2D.zero, w.get_coordinates.framebuffer⟩ ∧
      w.get_coordinates.window = (w.get_coordinates.framebuffer, Point2D.zero) ∧
      w.get_coordinates.screen = w.get_coordinates.framebuffer ∧
      w.get_coordinates.screen_avail = w.get_coordinates.framebuffer ∧
      w.get_coordinates.hidpi_factor = w.servo_hidpi_factor) ∧
    ({ w with webrender_surfman :=
        { w.webrender_surfman with
          surfaceInfo := some (some info) } } : Window).get_coordinates.framebuffer =
      info.size ∧
    ({ w with webrender_surfman :=
        { w.webrender_surfman with
          surfaceInfo := none } } : Window).get_coordinates.framebuffer =
      ⟨0, 0⟩ ∧
    ({ w with webrender_surfman :=
        { w.webrender_surfman with
          surfaceInfo := some none } } : Window).get_coordinates.framebuffer =
      ⟨0, 0⟩ :=
  ⟨⟨rfl, rfl, rfl, rfl, rfl⟩, rfl, rfl, rfl⟩

/-- Claim C8: `set_fullscreen b` followed by `get_fullscreen` returns `b`
and `set_animation_state st` followed by `is_animating` returns whether
`st` is `Animating` (true for `Animating`, false for `Idle`), each
regardless of any interleaved activity that does not itself set the same
flag; and `is_animating` is true iff the stored state equals `Animating`. -/
theorem fullscreen_animation_roundtrip (w : Window) (b : Bool)
    (st : AnimationState) (ops1 ops2 : List HostOp)
    (h1 : ops1.all (fun op => !op.isSetFullscreen) = true)
    (h2 : ops2.all (fun op => !op.isSetAnimationState) = true) :
    (applyOps ops1 (w.set_fullscreen b)).get_fullscreen = b ∧
    (applyOps ops2 (w.set_animation_state st)).is_animating =
      (st == AnimationState.Animating) ∧
    (w.is_animating = true ↔ w.animation_state = AnimationState.Animating) := by
  refine ⟨?_, ?_, ?_⟩
  · show (applyOps ops1 (w.set_fullscreen b)).fullscreen = b
    rw [applyOps_fullscreen ops1 _ h1]
    rfl
  · show ((applyOps ops2 (w.set_animation_state st)).animation_state ==
      AnimationState.Animating) = (st == AnimationState.Animating)
    rw [applyOps_animation_state ops2 _ h2]
    rfl
  · cases hst : w.animation_state <;> simp [Window.is_animating, hst]

/-- Claim C9: translating any platform input event is a fatal assertion
(it never returns normally, modelled by `none`), while the
unsupported-capability queries return the fixed variants
`GlContext.Unknown`, `NativeDisplay.Unknown` and `GlApi.None` rather than
failing. -/
theorem platform_input_unreachable_and_unknown_capabilities
    (w : Window) (e : WinitWindowEvent) :
    w.winit_event_to_servo_event e = none ∧
    w.get_gl_context = GlContext.Unknown ∧
    w.get_native_display = NativeDisplay.Unknown ∧
    w.get_gl_api = GlApi.None :=
  ⟨rfl, rfl, rfl, rfl⟩

/-- Claim C10: every operation other than a resize and other than the
event poll leaves both the stored logical size and the pending-resize
flag unchanged (in particular `set_fullscreen`, `set_animation_state`,
`get_coordinates` and `page_height` do), and the event poll itself leaves
the stored logical size unchanged, so only resize mutates the size and
only resize and poll mutate the flag. -/
theorem non_resize_non_poll_ops_preserve_size_and_flag (w : Window)
    (op : HostOp) (h1 : op.isSetInnerSize = false)
    (h2 : op ≠ HostOp.getEvents) :
    (applyOp op w).inner_size = w.inner_size ∧
    (applyOp op w).size_changed = w.size_changed ∧
    (applyOp HostOp.getEvents w).inner_size = w.inner_size := by
  refine ⟨applyOp_inner_size op w h1, ?_, rfl⟩
  cases op <;>
    simp_all [applyOp, HostOp.isSetInnerSize, Window.set_fullscreen,
      Window.set_animation_state]

end HeadlessWindow

namespace HeadlessWindow

/-- Witness for Claim C8 at a concrete window and operation lists: a
resize, a poll and the other flag's setter are interleaved, and both
round-trips still hold. -/
theorem fullscreen_animation_roundtrip_witness :
    ([HostOp.setInnerSize ⟨2, 2⟩, HostOp.getEvents,
        HostOp.setAnimationState AnimationState.Idle].all
      (fun op => !op.isSetFullscreen)) = true ∧
    ([HostOp.setInnerSize ⟨2, 2⟩, HostOp.getEvents,
        HostOp.setFullscreen false].all
      (fun op => !op.isSetAnimationState)) = true ∧
    ((applyOps [HostOp.setInnerSize ⟨2, 2⟩, HostOp.getEvents,
          HostOp.setAnimationState AnimationState.Idle]
        ((Window.new 4 4 none).set_fullscreen true)).get_fullscreen = true ∧
      (applyOps [HostOp.setInnerSize ⟨2, 2⟩, HostOp.getEvents,
          HostOp.setFullscreen false]
        ((Window.new 4 4 none).set_animation_state
          AnimationState.Animating)).is_animating =
        (AnimationState.Animating == AnimationState.Animating) ∧
      ((Window.new 4 4 none).is_animating = true ↔
        (Window.new 4 4 none).animation_state = AnimationState.Animating)) :=
  ⟨by decide, by decide,
    fullscreen_animation_roundtrip (Window.new 4 4 none) true
      AnimationState.Animating
      [HostOp.setInnerSize ⟨2, 2⟩, HostOp.getEvents,
        HostOp.setAnimationState AnimationState.Idle]
      [HostOp.setInnerSize ⟨2, 2⟩, HostOp.getEvents,
        HostOp.setFullscreen false]
      (by decide) (by decide)⟩

/-- Witness for Claim C10 at a concrete window and operation: a fullscreen
toggle is neither a resize nor a poll, and it preserves size and flag. -/
theorem non_resize_non_poll_ops_preserve_size_and_flag_witness :
    (HostOp.setFullscreen true).isSetInnerSize = false ∧
    HostOp.setFullscreen true ≠ HostOp.getEvents ∧
    ((applyOp (HostOp.setFullscreen true) (Window.new 3 3 none)).inner_size =
        (Window.new 3 3 none).inner_size ∧
      (applyOp (HostOp.setFullscreen true) (Window.new 3 3 none)).size_changed =
        (Window.new 3 3 none).size_changed ∧
      (applyOp HostOp.getEvents (Window.new 3 3 none)).inner_size =
        (Window.new 3 3 none).inner_size) :=
  ⟨by decide, by decide,
    non_resize_non_poll_ops_preserve_size_and_flag (Window.new 3 3 none)
      (HostOp.setFullscreen true) (by decide) (by decide)⟩

end HeadlessWindow
